import Mathlib

/-!
Shallow embedding of the tts-server dispatch core (app/tts_engine.py,
app/utils.py, app/config.py).

Modelling conventions:
- Wall-clock time is a Nat counted in 0.1-second ticks (the waiting loop in
  TTSEngineManager.synthesize sleeps 0.1 s per iteration); queue_timeout = 30 s
  is 300 ticks and the default request timeout likewise.
- The opaque TTS model (self.model.tts) is a Handle, a function from the input
  text to Except String Nat: ok carries the synthesized audio payload
  (abstracted to a Nat), error carries the exception message.
- Python response dicts become the Response structure; format_response keeps
  the data key only on success and the error key only on failure, exactly as
  app/utils.format_response does.
- Floats that the claims never compare (percentages, megabytes) are Nats.
- SynthResult.handleInvoked is ghost instrumentation recording whether the
  computation handle (model.tts) was called; it does not influence behaviour.
-/

/-- Audio payload produced by the opaque model handle (abstracted). -/
abbrev AudioData := Nat

/-- Opaque computation handle: model.tts, which may raise. -/
def Handle := String → Except String AudioData

/-- Data payloads that app code ever puts under the "data" key of a response:
the queue receipt built by add_to_queue, the synthesis payload built by
TTSEngine.synthesize, and the bare request_id dict attached by process_queue
and by the timeout path of TTSEngineManager.synthesize. -/
inductive RespData where
  | queuedInfo (queue_position : Nat) (estimated_wait_time : Nat) (request_id : Nat)
  | synth (audio : String) (sample_rate : Nat) (format : String)
      (text : String) (speaker : String) (engine_id : Nat) (request_id : Option Nat)
  | reqId (request_id : Nat)
deriving DecidableEq, Repr

/-- Response dict as produced by app/utils.format_response. -/
structure Response where
  success : Bool
  timestamp : Nat
  data : Option RespData
  error : Option String
deriving DecidableEq, Repr

/-- app/utils.format_response: the data key is attached only when success and
data is not None; the error key only when not success and error is set. -/
def format_response (success : Bool) (now : Nat)
    (data : Option RespData) (error : Option String) : Response :=
  { success := success
    timestamp := now
    data := if success then data else none
    error := if success then none else error }

/-- app/utils.validate_text. Python: not text or not text.strip() rejects, then
len(text) > max_length rejects. -/
def validate_text (text : String) (max_length : Nat) : Bool :=
  if text = "" ∨ text.trim = "" then false
  else if text.length > max_length then false
  else true

/-- app/utils.audio_to_base64 (audio encoding itself is an out-of-scope
collaborator; we keep it as an injective rendering of the payload). -/
def audio_to_base64 (a : AudioData) (sample_rate : Nat) (format : String) : String :=
  "b64:" ++ toString (a : Nat) ++ ":" ++ toString sample_rate ++ ":" ++ format

/-- Worker state (class TTSEngine): busy flag, current task, start time form
the lock-guarded state triple; the handle is the model loaded at init. -/
structure Engine where
  engine_id : Nat
  busy : Bool
  current_task : Option String
  start_time : Option Nat
  max_text_length : Nat
  sample_rate : Nat
  audio_format : String
  handle : Handle

/-- Python str(None) rendering used in the busy-error f-string. -/
def taskStr : Option String → String
  | none => "None"
  | some s => s

/-- TTSEngine._set_busy. -/
def Engine.set_busy (e : Engine) (b : Bool) (task : Option String) (now : Nat) : Engine :=
  { e with
    busy := b
    current_task := if b then task else none
    start_time := if b then some now else none }

/-- Task descriptor built at the top of TTSEngine.synthesize. -/
def taskInfo (text : String) : String :=
  "synthesize: " ++ text.take 20 ++ (if text.length > 20 then "..." else "")

/-- Result of one TTSEngine.synthesize call: the response, the worker state
after the finally block, and ghost instrumentation of handle invocation. -/
structure SynthResult where
  resp : Response
  engine : Engine
  handleInvoked : Bool

/-- First half of TTSEngine.synthesize after the busy check: mark busy with
the task descriptor (the code then enters the try block). -/
def Engine.beginSynth (e : Engine) (text : String) (now : Nat) : Engine :=
  e.set_busy true (some (taskInfo text)) now

/-- Body of the try block of TTSEngine.synthesize plus the finally block:
validate, run the handle, build the response, release the busy flag. -/
def Engine.endSynth (e : Engine) (text speaker : String) (now : Nat) : SynthResult :=
  if ¬ validate_text text e.max_text_length then
    { resp := format_response false now none
        (some ("Invalid text: length must be <= " ++ toString e.max_text_length))
      engine := e.set_busy false none now
      handleInvoked := false }
  else
    match e.handle text with
    | .ok a =>
      { resp := format_response true now
          (some (.synth (audio_to_base64 a e.sample_rate e.audio_format)
            e.sample_rate e.audio_format text speaker e.engine_id none)) none
        engine := e.set_busy false none now
        handleInvoked := true }
    | .error msg =>
      { resp := format_response false now none (some ("Synthesis failed: " ++ msg))
        engine := e.set_busy false none now
        handleInvoked := true }

/-- TTSEngine.synthesize: busy check, then begin + body + finally. -/
def Engine.synthesize (e : Engine) (text speaker : String) (now : Nat) : SynthResult :=
  if e.busy then
    { resp := format_response false now none
        (some ("Engine " ++ toString e.engine_id ++ " is busy with task: "
          ++ taskStr e.current_task))
      engine := e
      handleInvoked := false }
  else
    (e.beginSynth text now).endSynth text speaker now

/-- Fresh worker as built by TTSEngine.__init__ once _load_model returned the
handle (settings: MAX_TEXT_LENGTH = 500, SAMPLE_RATE = 22050, AUDIO_FORMAT =
"wav" from app/config.py). -/
def mkEngine (i : Nat) (h : Handle) : Engine :=
  { engine_id := i
    busy := false
    current_task := none
    start_time := none
    max_text_length := 500
    sample_rate := 22050
    audio_format := "wav"
    handle := h }

/-- Item of TTSEngineManager.request_queue. -/
structure QueueItem where
  text : String
  speaker : String
  timestamp : Nat
  id : Nat
deriving DecidableEq, Repr

/-- Manager state (class TTSEngineManager). -/
structure Manager where
  engines : List Engine
  request_queue : List QueueItem
  max_queue_size : Nat
  queue_timeout : Nat
  total_requests : Nat
  successful_requests : Nat
  failed_requests : Nat
  queue_full_count : Nat
  timeout_count : Nat

/-- Manager as left by TTSEngineManager.__init__ (max_queue_size = 100,
queue_timeout = 30 s = 300 ticks) with a given preloaded engine pool. -/
def initManager (engines : List Engine) : Manager :=
  { engines := engines
    request_queue := []
    max_queue_size := 100
    queue_timeout := 300
    total_requests := 0
    successful_requests := 0
    failed_requests := 0
    queue_full_count := 0
    timeout_count := 0 }

/-- Scan of TTSEngineManager.get_available_engine: first non-busy engine in
pool order, together with its index (needed to write the updated worker back). -/
def findAvailable : List Engine → Option (Nat × Engine)
  | [] => none
  | e :: rest =>
    if e.busy = false then some (0, e)
    else (findAvailable rest).map (fun p => (p.1 + 1, p.2))

/-- TTSEngineManager.get_available_engine. -/
def Manager.get_available_engine (m : Manager) : Option (Nat × Engine) :=
  findAvailable m.engines

/-- Error message of the queue-full rejection in add_to_queue. -/
def queueFullMsg (n : Nat) : String :=
  "Queue is full (max size: " ++ toString n ++ "). Please try again later."

/-- TTSEngineManager.add_to_queue. -/
def Manager.add_to_queue (m : Manager) (text speaker : String) (now : Nat) :
    Response × Manager :=
  if m.request_queue.length ≥ m.max_queue_size then
    (format_response false now none (some (queueFullMsg m.max_queue_size)),
     { m with queue_full_count := m.queue_full_count + 1 })
  else
    let item : QueueItem :=
      { text := text, speaker := speaker, timestamp := now, id := m.total_requests }
    let q := m.request_queue ++ [item]
    (format_response true now
        (some (.queuedInfo q.length (2 * q.length) item.id)) none,
     { m with request_queue := q, total_requests := m.total_requests + 1 })

/-- Python result.get("data", \x7b\x7d).get("request_id") on a response. -/
def requestIdOf (r : Response) : Option Nat :=
  match r.data with
  | some (.queuedInfo _ _ i) => some i
  | some (.synth _ _ _ _ _ _ rid) => rid
  | some (.reqId i) => some i
  | none => none

/-- Mutation result["data"]["request_id"] = id performed by process_queue on a
successful synthesis response. -/
def setReqId : Option RespData → Nat → Option RespData
  | some (.synth a sr f t sp eid _), rid => some (.synth a sr f t sp eid (some rid))
  | d, _ => d

/-- Ghost observation of what one process_queue call did. -/
inductive QEvent where
  | expired (rid : Nat)
  | ran (rid : Nat) (engineIdx : Nat) (success : Bool)
deriving DecidableEq, Repr

/-- TTSEngineManager.process_queue. Runs entirely under queue_lock in the
source, so it is one atomic step. Returns the optional response, the new
manager state, and a ghost QEvent. -/
def Manager.process_queue (m : Manager) (now : Nat) :
    Option Response × Manager × Option QEvent :=
  match m.request_queue with
  | [] => (none, m, none)
  | first :: rest =>
    if now - first.timestamp > m.queue_timeout then
      (some (format_response false now (some (.reqId first.id))
          (some "Request timed out in queue")),
       { m with request_queue := rest, timeout_count := m.timeout_count + 1 },
       some (.expired first.id))
    else
      match m.get_available_engine with
      | none => (none, m, none)
      | some (i, e) =>
        let sr := e.synthesize first.text first.speaker now
        let result :=
          if sr.resp.success then { sr.resp with data := setReqId sr.resp.data first.id }
          else { sr.resp with data := some (.reqId first.id) }
        (some result,
         { m with
            request_queue := rest
            engines := m.engines.set i sr.engine
            successful_requests :=
              if result.success then m.successful_requests + 1 else m.successful_requests
            failed_requests :=
              if result.success then m.failed_requests else m.failed_requests + 1 },
         some (.ran first.id i result.success))

/-- Outcome of the first, pre-loop phase of TTSEngineManager.synthesize:
either an immediate response (direct processing, or queue-full rejection) or
an enqueued request id that the caller will now poll for. -/
inductive SubmitOutcome where
  | immediate (r : Response)
  | queued (request_id : Nat)
deriving DecidableEq, Repr

/-- Lines 349-373 of TTSEngineManager.synthesize: try an idle engine for
direct processing (updating the success/failure counters), otherwise
add_to_queue and either return its rejection or enter the waiting loop. -/
def Manager.submitStep (m : Manager) (text speaker : String) (now : Nat) :
    SubmitOutcome × Manager :=
  match m.get_available_engine with
  | some (i, e) =>
    let sr := e.synthesize text speaker now
    (.immediate sr.resp,
     { m with
        engines := m.engines.set i sr.engine
        successful_requests :=
          if sr.resp.success then m.successful_requests + 1 else m.successful_requests
        failed_requests :=
          if sr.resp.success then m.failed_requests else m.failed_requests + 1 })
  | none =>
    let (r, m1) := m.add_to_queue text speaker now
    if r.success then (.queued ((requestIdOf r).getD 0), m1)
    else (.immediate r, m1)

/-- Error message of the wall-clock timeout path of TTSEngineManager.synthesize
(timeout printed in ticks of 0.1 s). -/
def timeoutMsg (timeout : Nat) : String :=
  "Request timed out after " ++ toString timeout ++ "s"

/-- Lines 389-402 of TTSEngineManager.synthesize: on wall-clock timeout, remove
the first queue item carrying our request id, bump timeout_count, and build the
timed-out response (whose data is dropped by format_response on failure). -/
def Manager.timeoutCleanup (m : Manager) (rid timeout now : Nat) :
    Response × Manager :=
  (format_response false now (some (.reqId rid)) (some (timeoutMsg timeout)),
   { m with
      request_queue := m.request_queue.eraseP (fun it => it.id == rid)
      timeout_count := m.timeout_count + 1 })

/-- Waiting loop of TTSEngineManager.synthesize (lines 376-387) for a single
caller: each iteration runs process_queue, keeps the result only when its
request_id matches, and otherwise sleeps one 0.1 s tick; the fuel is the
number of remaining iterations before time.time() - wait_start reaches the
timeout. -/
def Manager.waitLoop (m : Manager) (rid timeout : Nat) :
    Nat → Nat → Response × Manager
  | 0, now => m.timeoutCleanup rid timeout now
  | fuel + 1, now =>
    let (res, m1, _) := m.process_queue now
    match res with
    | some r =>
      if requestIdOf r = some rid then (r, m1)
      else m1.waitLoop rid timeout fuel (now + 1)
    | none => m1.waitLoop rid timeout fuel (now + 1)

/-- TTSEngineManager.synthesize for a single caller thread: submitStep, then
the waiting loop with fuel = timeout ticks. -/
def Manager.synthesize (m : Manager) (text speaker : String)
    (timeout now : Nat) : Response × Manager :=
  match m.submitStep text speaker now with
  | (.immediate r, m1) => (r, m1)
  | (.queued rid, m1) => m1.waitLoop rid timeout timeout now

/-- Warmup sentence used by TTSEngineManager._preload_models. -/
def warmupText : String := "你好世界，这是一个文本转语音的测试。"

/-- TTSEngine.__init__ as seen by the bootstrap loop: _load_model may raise,
in which case the constructor raises and no engine object exists. -/
def initEngine (load : Nat → Except String Handle) (i : Nat) : Except String Engine :=
  (load i).map (mkEngine i)

/-- Body of the for-loop of TTSEngineManager._preload_models over a list of
remaining worker indices, carrying the pool built so far: construct the
engine (exceptions skip the index), run the warmup synthesis, and append the
worker only when the warmup response reports success. -/
def preloadGo (load : Nat → Except String Handle) :
    List Nat → List Engine → List Engine
  | [], acc => acc
  | i :: rest, acc =>
    match initEngine load i with
    | .error _ => preloadGo load rest acc
    | .ok e =>
      let sr := e.synthesize warmupText "default" 0
      if sr.resp.success then preloadGo load rest (acc ++ [sr.engine])
      else preloadGo load rest acc

/-- TTSEngineManager._preload_models for num_workers workers. -/
def preload_models (n : Nat) (load : Nat → Except String Handle) : List Engine :=
  preloadGo load (List.range n) []

/-! Telemetry (app/utils.get_memory_usage / get_cpu_usage / get_gpu_info) and
TTSEngineManager.get_status. Probes of the psutil / torch collaborators are
modelled as Except-valued inputs; a probe the source wraps in try/except is
absorbed, a probe it leaves bare propagates and makes the whole call raise. -/

/-- Dict returned by get_memory_usage (floats as Nats). -/
structure MemInfo where
  rss_mb : Nat
  vms_mb : Nat
  percent : Nat
  system_total_mb : Nat
  system_available_mb : Nat
  system_used_mb : Nat
  system_percent : Nat
deriving DecidableEq, Repr

/-- Dict returned by get_cpu_usage. -/
structure CpuInfo where
  process_percent : Nat
  system_percent : Nat
  cpu_count : Nat
  cpu_freq : Option Nat
deriving DecidableEq, Repr

/-- What torch reports to get_gpu_info when the probe does not raise. -/
inductive GpuProbe where
  | mps
  | cuda (device_count : Nat) (name : String)
      (memory_allocated : Nat) (memory_reserved : Nat) (memory_total : Nat)
      (utilization : Option Nat) (temperature : Option Nat)
  | cpuOnly
deriving DecidableEq, Repr

/-- Dict returned by get_gpu_info. -/
structure GpuInfo where
  available : Bool
  device_type : Option String
  device_count : Option Nat
  name : Option String
  memory_total : Option Nat
  memory_used : Option Nat
  memory_free : Option Nat
  memory_reserved : Option Nat
  temperature : Option Nat
  utilization : Option Nat
  message : Option String
  error : Option String
deriving DecidableEq, Repr

/-- External telemetry collaborators as consumed by one get_status call. -/
structure Telemetry where
  mem : Except String MemInfo
  cpuProc : Except String Unit
  cpu_process_percent : Except String Nat
  cpu_system_percent : Except String Nat
  cpu_count : Except String Nat
  cpu_freq : Except String (Option Nat)
  gpu : Except String GpuProbe

/-- app/utils.get_memory_usage: no try/except anywhere, so a failing psutil
probe propagates out of the call. -/
def get_memory_usage (t : Telemetry) : Except String MemInfo :=
  t.mem

/-- Fallback of the individually guarded probes inside get_cpu_usage. -/
def probeOr (p : Except String Nat) (d : Nat) : Nat :=
  match p with
  | .ok v => v
  | .error _ => d

/-- app/utils.get_cpu_usage: psutil.Process() is outside every try block and
propagates; each individual metric probe is guarded and falls back to a
default; cpu_freq is kept only when above 1000. -/
def get_cpu_usage (t : Telemetry) : Except String CpuInfo := do
  let _ ← t.cpuProc
  pure
    { process_percent := probeOr t.cpu_process_percent 0
      system_percent := probeOr t.cpu_system_percent 0
      cpu_count := probeOr t.cpu_count 0
      cpu_freq :=
        match t.cpu_freq with
        | .ok (some c) => if c > 1000 then some c else none
        | .ok none => none
        | .error _ => none }

/-- app/utils.get_gpu_info: the whole body sits in one try/except, so every
probe failure is converted to an available-false dict carrying the error. -/
def get_gpu_info (g : Except String GpuProbe) : GpuInfo :=
  match g with
  | .ok .mps =>
    { available := true, device_type := some "mps", device_count := some 1
      name := some "Apple Silicon GPU", memory_total := none, memory_used := none
      memory_free := none, memory_reserved := none, temperature := none
      utilization := none, message := none, error := none }
  | .ok (.cuda n name alloc reserved total util temp) =>
    if n = 0 then
      { available := false, device_type := none, device_count := none
        name := none, memory_total := none, memory_used := none
        memory_free := none, memory_reserved := none, temperature := none
        utilization := none, message := some "No GPU devices found", error := none }
    else
      { available := true, device_type := some "cuda", device_count := some n
        name := some name, memory_total := some total, memory_used := some alloc
        memory_free := some (total - alloc), memory_reserved := some reserved
        temperature := temp, utilization := util, message := none, error := none }
  | .ok .cpuOnly =>
    { available := false, device_type := none, device_count := none
      name := none, memory_total := none, memory_used := none
      memory_free := none, memory_reserved := none, temperature := none
      utilization := none, message := some "No GPU acceleration available", error := none }
  | .error e =>
    { available := false, device_type := none, device_count := none
      name := none, memory_total := none, memory_used := none
      memory_free := none, memory_reserved := none, temperature := none
      utilization := none, message := none, error := some e }

/-- Statistics block of the status snapshot. -/
structure StatsInfo where
  total_requests : Nat
  successful_requests : Nat
  failed_requests : Nat
  queue_full_count : Nat
  timeout_count : Nat
deriving DecidableEq, Repr

/-- Status snapshot returned by TTSEngineManager.get_status (engine_statuses
kept as the list of busy flags and task descriptors the per-engine get_status
dicts expose). -/
structure Status where
  uptime : Nat
  num_workers : Nat
  total_workers : Nat
  available_engines : Nat
  busy_engines : Nat
  memory_usage : MemInfo
  cpu_usage : CpuInfo
  device : String
  gpu_info : GpuInfo
  queue_size : Nat
  queue_max_size : Nat
  queue_timeout : Nat
  statistics : StatsInfo
  engine_statuses : List (Nat × Bool × Option String)
deriving DecidableEq, Repr

/-- TTSEngineManager.get_status: memory, gpu and cpu telemetry are collected
first (in source order); an exception from get_memory_usage or get_cpu_usage
propagates and the snapshot is never produced. -/
def Manager.get_status (m : Manager) (t : Telemetry)
    (num_workers_cfg : Nat) (device : String) (now start_time : Nat) :
    Except String Status := do
  let memory_info ← get_memory_usage t
  let gpu_info := get_gpu_info t.gpu
  let cpu_info ← get_cpu_usage t
  pure
    { uptime := now - start_time
      num_workers := m.engines.length
      total_workers := num_workers_cfg
      available_engines := (m.engines.filter (fun e => e.busy = false)).length
      busy_engines := (m.engines.filter (fun e => e.busy = true)).length
      memory_usage := memory_info
      cpu_usage := cpu_info
      device := device
      gpu_info := gpu_info
      queue_size := m.request_queue.length
      queue_max_size := m.max_queue_size
      queue_timeout := m.queue_timeout
      statistics :=
        { total_requests := m.total_requests
          successful_requests := m.successful_requests
          failed_requests := m.failed_requests
          queue_full_count := m.queue_full_count
          timeout_count := m.timeout_count }
      engine_statuses := m.engines.map (fun e => (e.engine_id, e.busy, e.current_task)) }

/-! Thread-level execution model. Several OS threads run
TTSEngineManager.synthesize concurrently against one shared manager. Atomic
steps follow the lock structure of the source: process_queue holds queue_lock
for its whole body (synthesis included) and is one step; the direct path of
synthesize takes no manager-wide lock, so claiming the idle engine (the
busy-flag flip inside TTSEngine.synthesize, guarded only by the per-engine
lock) and finishing the synthesis are separate steps between which other
threads may act. -/

/-- Phase of one caller thread inside TTSEngineManager.synthesize. -/
inductive ThreadSt where
  | idle (text speaker : String) (timeout : Nat)
  | runningDirect (engineIdx : Nat) (text speaker : String)
  | waiting (rid : Nat) (wait_start : Nat) (timeout : Nat)
  | done (r : Response)
deriving DecidableEq, Repr

/-- Observable trace events. tid is the submitting caller thread of the job. -/
inductive Event where
  | submitted (tid : Nat) (time : Nat)
  | enqueued (tid : Nat) (rid : Nat) (time : Nat)
  | jobStarted (tid : Option Nat) (rid : Option Nat) (time : Nat)
  | jobCompleted (rid : Option Nat) (success : Bool) (time : Nat)
  | delivered (tid : Nat) (time : Nat)
  | discardedResult (tid : Nat) (rid : Option Nat) (time : Nat)
deriving DecidableEq, Repr

/-- Submitter of an enqueued request id, read off the trace. -/
def ownerOf (ev : List Event) (rid : Nat) : Option Nat :=
  ev.findSome? fun e =>
    match e with
    | .enqueued tid r _ => if r = rid then some tid else none
    | _ => none

/-- Whole-system state: shared manager, caller threads, clock, trace. -/
structure Sys where
  mgr : Manager
  threads : List ThreadSt
  clock : Nat
  events : List Event

/-- Scheduling choices: which thread takes its next atomic step, or one
0.1 s tick of wall-clock time. -/
inductive SchedAct where
  | submit (tid : Nat)
  | finishDirect (tid : Nat)
  | poll (tid : Nat)
  | tick
deriving DecidableEq, Repr

/-- One atomic step of the system under a scheduling choice. -/
def Sys.step (s : Sys) (a : SchedAct) : Sys :=
  match a with
  | .tick => { s with clock := s.clock + 1 }
  | .submit tid =>
    match s.threads.get? tid with
    | some (.idle text sp tmo) =>
      match s.mgr.get_available_engine with
      | some (i, e) =>
        { s with
            mgr := { s.mgr with engines := s.mgr.engines.set i (e.beginSynth text s.clock) }
            threads := s.threads.set tid (.runningDirect i text sp)
            events := s.events ++
              [.submitted tid s.clock, .jobStarted (some tid) none s.clock] }
      | none =>
        let (r, m1) := s.mgr.add_to_queue text sp s.clock
        if r.success then
          let rid := (requestIdOf r).getD 0
          { s with
              mgr := m1
              threads := s.threads.set tid (.waiting rid s.clock tmo)
              events := s.events ++ [.submitted tid s.clock, .enqueued tid rid s.clock] }
        else
          { s with
              mgr := m1
              threads := s.threads.set tid (.done r)
              events := s.events ++ [.submitted tid s.clock] }
    | _ => s
  | .finishDirect tid =>
    match s.threads.get? tid with
    | some (.runningDirect i text sp) =>
      match s.mgr.engines.get? i with
      | some e =>
        let sr := e.endSynth text sp s.clock
        { s with
            mgr :=
              { s.mgr with
                  engines := s.mgr.engines.set i sr.engine
                  successful_requests :=
                    if sr.resp.success then s.mgr.successful_requests + 1
                    else s.mgr.successful_requests
                  failed_requests :=
                    if sr.resp.success then s.mgr.failed_requests
                    else s.mgr.failed_requests + 1 }
            threads := s.threads.set tid (.done sr.resp)
            events := s.events ++
              [.jobCompleted none sr.resp.success s.clock, .delivered tid s.clock] }
      | none => s
    | _ => s
  | .poll tid =>
    match s.threads.get? tid with
    | some (.waiting rid ws tmo) =>
      if s.clock - ws < tmo then
        let (res, m1, qe) := s.mgr.process_queue s.clock
        let evs : List Event :=
          match qe with
          | some (.ran r _ succ) =>
            [.jobStarted (ownerOf s.events r) (some r) s.clock,
             .jobCompleted (some r) succ s.clock]
          | _ => []
        match res with
        | some r =>
          if requestIdOf r = some rid then
            { s with
                mgr := m1
                threads := s.threads.set tid (.done r)
                events := s.events ++ evs ++ [.delivered tid s.clock] }
          else
            { s with
                mgr := m1
                events := s.events ++ evs ++
                  [.discardedResult tid (requestIdOf r) s.clock] }
        | none => { s with mgr := m1, events := s.events ++ evs }
      else
        let (r, m1) := s.mgr.timeoutCleanup rid tmo s.clock
        { s with
            mgr := m1
            threads := s.threads.set tid (.done r)
            events := s.events ++ [.delivered tid s.clock] }
    | _ => s

/-- Run a schedule of atomic steps. -/
def Sys.run (s : Sys) (acts : List SchedAct) : Sys :=
  acts.foldl Sys.step s

/-- Submit time of a caller thread, read off the trace. -/
def submittedTimeOf (ev : List Event) (tid : Nat) : Option Nat :=
  ev.findSome? fun e =>
    match e with
    | .submitted t time => if t = tid then some time else none
    | _ => none

/-- Time at which the job submitted by a caller thread began executing on a
worker, read off the trace. -/
def startTimeOf (ev : List Event) (tid : Nat) : Option Nat :=
  ev.findSome? fun e =>
    match e with
    | .jobStarted (some t) _ time => if t = tid then some time else none
    | _ => none

/-- Formalization of claim C1 over a trace: for every pair of submissions, the
one submitted/enqueued earlier begins execution no later than the one
submitted after it (in particular no later submission starts while an earlier
one is still waiting unstarted). -/
def fifoOk (ev : List Event) (nthreads : Nat) : Bool :=
  (List.range nthreads).all fun t1 =>
    (List.range nthreads).all fun t2 =>
      match submittedTimeOf ev t1, submittedTimeOf ev t2,
            startTimeOf ev t1, startTimeOf ev t2 with
      | some s1, some s2, b1, some b2 =>
        if s1 < s2 then
          match b1 with
          | some b1v => decide (b1v ≤ b2)
          | none => false
        else true
      | _, _, _, _ => true

/-- Success of worker bootstrap index i: handle loads and warmup succeeds. -/
def bootOk (load : Nat → Except String Handle) (i : Nat) : Bool :=
  match load i with
  | .error _ => false
  | .ok h => ((mkEngine i h).synthesize warmupText "default" 0).resp.success

/-! Concrete fixtures used by witnesses and counterexamples. -/

/-- Handle that always synthesizes successfully. -/
def okHandle : Handle := fun _ => .ok 0

/-- Handle that raises on the text "boom" and succeeds otherwise. -/
def flakyHandle : Handle := fun t => if t = "boom" then .error "CUDA out of memory" else .ok 7

/-- Handle that always raises (its warmup fails). -/
def brokenHandle : Handle := fun _ => .error "vocoder missing"

/-- Load behaviour for the bootstrap fixture: index 1 raises in the
constructor, index 2 loads a handle whose warmup synthesis fails. -/
def demoLoad : Nat → Except String Handle := fun i =>
  if i = 1 then .error "model file missing"
  else if i = 2 then .ok brokenHandle
  else .ok okHandle

/-- Fresh worker 0 with the always-ok handle. -/
def eng0 : Engine := mkEngine 0 okHandle

/-- Worker 0 currently busy (as during an in-flight synthesis). -/
def busyEng0 : Engine :=
  { eng0 with busy := true, current_task := some "synthesize: x", start_time := some 0 }

/-- Three callers against one worker: the system of the FIFO counterexample. -/
def c1Init : Sys :=
  { mgr := initManager [eng0]
    threads := [.idle "alpha" "default" 50, .idle "beta" "default" 50, .idle "gamma" "default" 50]
    clock := 0
    events := [] }

/-- Schedule of the FIFO counterexample: caller 0 takes the worker directly,
caller 1 must queue, the worker frees up, then caller 2 submits and is served
directly while caller 1 is still queued. -/
def c1Acts : List SchedAct :=
  [.submit 0, .tick, .submit 1, .tick, .finishDirect 0, .tick, .submit 2]

/-- Three callers against one worker: the system of the lost-result run.
Callers 1 and 2 use a 0.5 s submit timeout. -/
def c3Init : Sys :=
  { mgr := initManager [eng0]
    threads := [.idle "alpha" "default" 50, .idle "beta" "default" 5, .idle "gamma" "default" 5]
    clock := 0
    events := [] }

/-- Schedule of the lost-result run: requests 0 (caller 1) and 1 (caller 2)
are queued; caller 2 polls first and synthesizes request 0 whose result it
discards; caller 1 polls and synthesizes request 1 and discards it; both then
hit their wall-clock timeouts. -/
def c3Acts : List SchedAct :=
  [.submit 0, .tick, .submit 1, .tick, .submit 2, .tick, .finishDirect 0, .tick,
   .poll 2, .tick, .poll 1, .tick, .poll 1, .tick, .poll 2]

/-- A full queue of 100 waiting items with ids 0..99. -/
def fullQ : List QueueItem :=
  (List.range 100).map (fun i => { text := "q", speaker := "default", timestamp := 0, id := i })

/-- Manager whose queue is at capacity while worker 0 is idle: reachable when
the worker finishes a direct job after the queue filled up and no waiting
caller has polled yet. -/
def c2M : Manager :=
  { initManager [eng0] with request_queue := fullQ, total_requests := 100 }

/-- Text of length 600, above MAX_TEXT_LENGTH = 500. -/
def t600 : String := String.mk (List.replicate 600 'a')

/-- Fresh manager with the single idle worker 0. -/
def c5M : Manager := initManager [eng0]

/-- Manager with one busy worker and the queue at capacity (the state a
caller observes right before a queue-full rejection). -/
def c2F : Manager :=
  { initManager [busyEng0] with request_queue := fullQ, total_requests := 100 }

/-- Manager holding one queued request with one idle worker, as polled by the
waiting caller. -/
def c1QM : Manager :=
  { initManager [eng0] with
      request_queue := [{ text := "queued text", speaker := "default", timestamp := 2, id := 0 }]
      total_requests := 1 }

/-- Healthy memory telemetry sample. -/
def memOkInfo : MemInfo :=
  { rss_mb := 1024, vms_mb := 2048, percent := 5, system_total_mb := 16384
    system_available_mb := 8192, system_used_mb := 8192, system_percent := 50 }

/-- Telemetry fixture whose memory probe raises and everything else works. -/
def memFailT : Telemetry :=
  { mem := .error "psutil process gone"
    cpuProc := .ok ()
    cpu_process_percent := .ok 12
    cpu_system_percent := .ok 30
    cpu_count := .ok 8
    cpu_freq := .ok (some 2400)
    gpu := .ok .cpuOnly }

/-- Telemetry fixture whose accelerator probe raises and everything else
works. -/
def gpuFailT : Telemetry :=
  { mem := .ok memOkInfo
    cpuProc := .ok ()
    cpu_process_percent := .ok 12
    cpu_system_percent := .ok 30
    cpu_count := .ok 8
    cpu_freq := .ok (some 2400)
    gpu := .error "CUDA driver initialization failed" }

/-! Helper lemmas shared across the claim theorems. -/

theorem findAvailable_of_allBusy (l : List Engine) (h : ∀ e ∈ l, e.busy = true) :
    findAvailable l = none := by
  induction l with
  | nil => rfl
  | cons a t ih =>
    have ha : a.busy = true := h a (List.mem_cons_self a t)
    simp only [findAvailable, ha]
    rw [ih (fun e he => h e (List.mem_cons_of_mem a he))]
    simp

theorem findAvailable_mem (l : List Engine) :
    ∀ i e, findAvailable l = some (i, e) → l.get? i = some e ∧ e.busy = false := by
  induction l with
  | nil => intro i e h; simp [findAvailable] at h
  | cons a t ih =>
    intro i e h
    by_cases hb : a.busy = false
    · simp only [findAvailable] at h
      rw [if_pos hb] at h
      have h2 : ((0 : Nat), a) = (i, e) := Option.some.inj h
      have hi : 0 = i := congrArg Prod.fst h2
      have he : a = e := congrArg Prod.snd h2
      cases hi; cases he
      exact ⟨rfl, hb⟩
    · simp only [findAvailable] at h
      rw [if_neg hb] at h
      cases hfa : findAvailable t with
      | none => rw [hfa] at h; simp at h
      | some p =>
        obtain ⟨j, e2⟩ := p
        rw [hfa] at h
        have h2 : (j + 1, e2) = (i, e) := Option.some.inj h
        have hi : j + 1 = i := congrArg Prod.fst h2
        have he : e2 = e := congrArg Prod.snd h2
        cases hi; cases he
        exact ih _ _ hfa

theorem set_get?_eq {α : Type} (l : List α) (i : Nat) (a : α)
    (h : l.get? i = some a) : l.set i a = l := by
  induction l generalizing i with
  | nil => exact absurd h (by simp)
  | cons x t ih =>
    cases i with
    | zero =>
      have hx : x = a := Option.some.inj h
      cases hx
      rfl
    | succ j =>
      have ht : t.get? j = some a := h
      show x :: t.set j a = x :: t
      rw [ih j ht]

theorem filter_eraseP_nil {α : Type} (p : α → Bool) (l : List α)
    (h : (l.filter p).length ≤ 1) : (l.eraseP p).filter p = [] := by
  induction l with
  | nil => rfl
  | cons a t ih =>
    by_cases hp : p a = true
    · rw [List.eraseP_cons_of_pos hp]
      have hlen : (List.filter p (a :: t)).length = (List.filter p t).length + 1 := by
        simp [List.filter_cons, hp]
      rw [hlen] at h
      have ht : (t.filter p).length = 0 := by omega
      exact List.length_eq_zero.mp ht
    · have hp2 : p a = false := by revert hp; cases p a <;> simp
      rw [List.eraseP_cons_of_neg (by simp [hp2])]
      have hfc : List.filter p (a :: t) = List.filter p t := by
        simp [List.filter_cons, hp2]
      rw [hfc] at h
      simpa [List.filter_cons, hp2] using ih h

/-- C9: any input that is empty or whitespace-only is rejected as invalid
input without invoking the computation handle, regardless of its length
(validation strips whitespace, rejecting more than just the empty string). -/
theorem c9_whitespace_rejected (e : Engine) (text speaker : String) (now : Nat)
    (hb : e.busy = false) (hw : text.trim = "") :
    (e.synthesize text speaker now).resp.success = false ∧
    (e.synthesize text speaker now).resp.error =
      some ("Invalid text: length must be <= " ++ toString e.max_text_length) ∧
    (e.synthesize text speaker now).handleInvoked = false := by
  have hv : validate_text text e.max_text_length = false := by
    simp [validate_text, hw]
  simp [Engine.synthesize, hb, Engine.beginSynth, Engine.set_busy, Engine.endSynth,
    hv, format_response]

/-- Witness for C9 at the three-space input. -/
theorem c9_witness :
    ((mkEngine 0 okHandle).busy = false ∧ "   ".trim = "") ∧
    ((mkEngine 0 okHandle).synthesize "   " "default" 0).resp.success = false ∧
    ((mkEngine 0 okHandle).synthesize "   " "default" 0).resp.error =
      some ("Invalid text: length must be <= " ++ toString (mkEngine 0 okHandle).max_text_length) ∧
    ((mkEngine 0 okHandle).synthesize "   " "default" 0).handleInvoked = false :=
  ⟨⟨rfl, by with_unfolding_all rfl⟩,
   c9_whitespace_rejected (mkEngine 0 okHandle) "   " "default" 0 rfl
     (by with_unfolding_all rfl)⟩

/-- C6: a handle failure is caught and surfaced as a synthesis-failed response
carrying the underlying message, the worker is released, and a following valid
job on the same worker succeeds (no poisoning). -/
theorem c6_failure_no_poisoning (e : Engine) (text text2 speaker : String)
    (msg : String) (a : AudioData) (now now2 : Nat)
    (hb : e.busy = false)
    (h1 : e.handle text = .error msg)
    (hv1 : validate_text text e.max_text_length = true)
    (hv2 : validate_text text2 e.max_text_length = true)
    (h2 : e.handle text2 = .ok a) :
    (e.synthesize text speaker now).resp.success = false ∧
    (e.synthesize text speaker now).resp.error = some ("Synthesis failed: " ++ msg) ∧
    (e.synthesize text speaker now).engine.busy = false ∧
    (e.synthesize text speaker now).engine.engine_id = e.engine_id ∧
    ((e.synthesize text speaker now).engine.synthesize text2 speaker now2).resp.success = true := by
  simp [Engine.synthesize, hb, Engine.beginSynth, Engine.set_busy, Engine.endSynth,
    hv1, hv2, h1, h2, format_response]

/-- Witness for C6 with the flaky handle failing on the text "boom". -/
theorem c6_witness :
    ((mkEngine 0 flakyHandle).busy = false ∧
     (mkEngine 0 flakyHandle).handle "boom" = .error "CUDA out of memory" ∧
     validate_text "boom" (mkEngine 0 flakyHandle).max_text_length = true ∧
     validate_text "hello again" (mkEngine 0 flakyHandle).max_text_length = true ∧
     (mkEngine 0 flakyHandle).handle "hello again" = .ok 7) ∧
    ((mkEngine 0 flakyHandle).synthesize "boom" "default" 1).resp.success = false ∧
    ((mkEngine 0 flakyHandle).synthesize "boom" "default" 1).resp.error =
      some ("Synthesis failed: " ++ "CUDA out of memory") ∧
    ((mkEngine 0 flakyHandle).synthesize "boom" "default" 1).engine.busy = false ∧
    ((mkEngine 0 flakyHandle).synthesize "boom" "default" 1).engine.engine_id =
      (mkEngine 0 flakyHandle).engine_id ∧
    (((mkEngine 0 flakyHandle).synthesize "boom" "default" 1).engine.synthesize
      "hello again" "default" 2).resp.success = true :=
  ⟨⟨rfl, by with_unfolding_all rfl, by with_unfolding_all rfl,
    by with_unfolding_all rfl, by with_unfolding_all rfl⟩,
   c6_failure_no_poisoning (mkEngine 0 flakyHandle) "boom" "hello again" "default"
     "CUDA out of memory" 7 1 2 rfl (by with_unfolding_all rfl)
     (by with_unfolding_all rfl) (by with_unfolding_all rfl) (by with_unfolding_all rfl)⟩

/-- C5 (amended): an over-length submission served by an idle worker returns
the invalid-input response immediately, never invokes the computation handle,
and leaves the worker state, the queue, and every statistics counter except
failed_requests unchanged; failed_requests is incremented by one. -/
theorem c5_invalid_input_frame (m : Manager) (text speaker : String)
    (now i : Nat) (e : Engine)
    (hfind : m.get_available_engine = some (i, e))
    (htask : e.current_task = none) (hstart : e.start_time = none)
    (hlen : text.length > e.max_text_length) :
    (m.submitStep text speaker now).1 =
      .immediate (format_response false now none
        (some ("Invalid text: length must be <= " ++ toString e.max_text_length))) ∧
    (m.submitStep text speaker now).2.engines = m.engines ∧
    (m.submitStep text speaker now).2.request_queue = m.request_queue ∧
    (m.submitStep text speaker now).2.total_requests = m.total_requests ∧
    (m.submitStep text speaker now).2.successful_requests = m.successful_requests ∧
    (m.submitStep text speaker now).2.queue_full_count = m.queue_full_count ∧
    (m.submitStep text speaker now).2.timeout_count = m.timeout_count ∧
    (m.submitStep text speaker now).2.failed_requests = m.failed_requests + 1 ∧
    (e.synthesize text speaker now).handleInvoked = false := by
  obtain ⟨hget, hbusy⟩ := findAvailable_mem m.engines i e hfind
  have hv : validate_text text e.max_text_length = false := by
    by_cases h0 : text = "" ∨ text.trim = ""
    · simp [validate_text, h0]
    · simp [validate_text, h0, hlen]
  have hsyn : e.synthesize text speaker now =
      { resp := format_response false now none
          (some ("Invalid text: length must be <= " ++ toString e.max_text_length))
        engine := e.set_busy false none now
        handleInvoked := false } := by
    simp [Engine.synthesize, hbusy, Engine.beginSynth, Engine.set_busy, Engine.endSynth, hv]
  have he' : e.set_busy false none now = e := by
    cases e
    simp only [Engine.set_busy] at *
    simp_all
  have hengines : m.engines.set i (e.synthesize text speaker now).engine = m.engines := by
    rw [hsyn]
    simp only []
    rw [he']
    exact set_get?_eq m.engines i e hget
  refine ⟨?_, ?_, ?_, ?_, ?_, ?_, ?_, ?_, ?_⟩ <;>
    simp [Manager.submitStep, hfind, hsyn, hengines, he',
      set_get?_eq m.engines i e hget, format_response]

set_option maxRecDepth 40000 in
/-- Witness for C5 amended: 600 a-characters against a fresh single-worker
manager. -/
theorem c5_witness :
    (c5M.get_available_engine = some (0, eng0) ∧ eng0.current_task = none ∧
     eng0.start_time = none ∧ t600.length > eng0.max_text_length) ∧
    (c5M.submitStep t600 "default" 3).1 =
      .immediate (format_response false 3 none
        (some ("Invalid text: length must be <= " ++ toString eng0.max_text_length))) ∧
    (c5M.submitStep t600 "default" 3).2.engines = c5M.engines ∧
    (c5M.submitStep t600 "default" 3).2.request_queue = c5M.request_queue ∧
    (c5M.submitStep t600 "default" 3).2.total_requests = c5M.total_requests ∧
    (c5M.submitStep t600 "default" 3).2.successful_requests = c5M.successful_requests ∧
    (c5M.submitStep t600 "default" 3).2.queue_full_count = c5M.queue_full_count ∧
    (c5M.submitStep t600 "default" 3).2.timeout_count = c5M.timeout_count ∧
    (c5M.submitStep t600 "default" 3).2.failed_requests = c5M.failed_requests + 1 ∧
    (eng0.synthesize t600 "default" 3).handleInvoked = false :=
  ⟨⟨rfl, rfl, rfl, of_decide_eq_true (by with_unfolding_all rfl)⟩,
   c5_invalid_input_frame c5M t600 "default" 3 0 eng0 rfl rfl rfl
     (of_decide_eq_true (by with_unfolding_all rfl))⟩

set_option maxRecDepth 40000 in
/-- Counterexample to C5 as stated: the same over-length submission leaves the
statistics counters changed after all, because the direct path counts the
invalid-input response as a failed request. -/
theorem c5_counterexample :
    t600.length = 600 ∧
    (c5M.submitStep t600 "default" 3).1 = .immediate
      { success := false, timestamp := 3, data := none,
        error := some "Invalid text: length must be <= 500" } ∧
    c5M.failed_requests = 0 ∧
    (c5M.submitStep t600 "default" 3).2.failed_requests = 1 :=
  ⟨by with_unfolding_all rfl, by with_unfolding_all rfl, rfl,
   by with_unfolding_all rfl⟩

/-- C10: a submission served directly by an idle engine bumps exactly one of
successful_requests or failed_requests and leaves total_requests unchanged
(total_requests counts only requests placed into the queue, where
add_to_queue increments it without touching the outcome counters). -/
theorem c10_direct_path_counters (m : Manager) (text speaker : String)
    (now i : Nat) (e : Engine)
    (hfind : m.get_available_engine = some (i, e)) :
    (m.submitStep text speaker now).2.total_requests = m.total_requests ∧
    (m.submitStep text speaker now).2.successful_requests +
      (m.submitStep text speaker now).2.failed_requests =
      m.successful_requests + m.failed_requests + 1 ∧
    (∀ r m1, m.add_to_queue text speaker now = (r, m1) → r.success = true →
      m1.total_requests = m.total_requests + 1 ∧
      m1.successful_requests = m.successful_requests ∧
      m1.failed_requests = m.failed_requests) := by
  refine ⟨?_, ?_, ?_⟩
  · simp [Manager.submitStep, hfind]
  · simp only [Manager.submitStep, hfind]
    cases hs : (e.synthesize text speaker now).resp.success <;> simp [hs] <;> omega
  · intro r m1 hq hsucc
    unfold Manager.add_to_queue at hq
    by_cases hfull : m.request_queue.length ≥ m.max_queue_size
    · rw [if_pos hfull] at hq
      have hr : format_response false now none (some (queueFullMsg m.max_queue_size)) = r :=
        congrArg Prod.fst hq
      have : r.success = false := by rw [← hr]; rfl
      rw [this] at hsucc
      exact absurd hsucc (by simp)
    · rw [if_neg hfull] at hq
      have hm1 := congrArg Prod.snd hq
      simp only [] at hm1
      rw [← hm1]
      exact ⟨rfl, rfl, rfl⟩

/-- Witness for C10 at a fresh single-worker manager. -/
theorem c10_witness :
    c5M.get_available_engine = some (0, eng0) ∧
    (c5M.submitStep "hello" "default" 4).2.total_requests = c5M.total_requests ∧
    (c5M.submitStep "hello" "default" 4).2.successful_requests +
      (c5M.submitStep "hello" "default" 4).2.failed_requests =
      c5M.successful_requests + c5M.failed_requests + 1 ∧
    (∀ r m1, c5M.add_to_queue "hello" "default" 4 = (r, m1) → r.success = true →
      m1.total_requests = c5M.total_requests + 1 ∧
      m1.successful_requests = c5M.successful_requests ∧
      m1.failed_requests = c5M.failed_requests) :=
  ⟨rfl, c10_direct_path_counters c5M "hello" "default" 4 0 eng0 rfl⟩

theorem queueFullMsg_head (k : Nat) : (queueFullMsg k).data.head? = some 'Q' := by
  unfold queueFullMsg
  rw [String.data_append, String.data_append,
    show ("Queue is full (max size: " : String).data =
      'Q' :: ("ueue is full (max size: " : String).data from by with_unfolding_all rfl]
  rfl

theorem busy_ne_queueFull (x y : String) (k : Nat) :
    ("Engine " ++ x ++ " is busy with task: " ++ y) ≠ queueFullMsg k := by
  intro h
  have hh : ("Engine " ++ x ++ " is busy with task: " ++ y).data.head? =
      (queueFullMsg k).data.head? := congrArg (fun s => s.data.head?) h
  rw [queueFullMsg_head] at hh
  rw [String.data_append, String.data_append, String.data_append,
    show ("Engine " : String).data = 'E' :: ("ngine " : String).data from by
      with_unfolding_all rfl] at hh
  simp at hh

theorem invalid_ne_queueFull (x : String) (k : Nat) :
    ("Invalid text: length must be <= " ++ x) ≠ queueFullMsg k := by
  intro h
  have hh : ("Invalid text: length must be <= " ++ x).data.head? =
      (queueFullMsg k).data.head? := congrArg (fun s => s.data.head?) h
  rw [queueFullMsg_head] at hh
  rw [String.data_append,
    show ("Invalid text: length must be <= " : String).data =
      'I' :: ("nvalid text: length must be <= " : String).data from by
      with_unfolding_all rfl] at hh
  simp at hh

theorem synfail_ne_queueFull (x : String) (k : Nat) :
    ("Synthesis failed: " ++ x) ≠ queueFullMsg k := by
  intro h
  have hh : ("Synthesis failed: " ++ x).data.head? =
      (queueFullMsg k).data.head? := congrArg (fun s => s.data.head?) h
  rw [queueFullMsg_head] at hh
  rw [String.data_append,
    show ("Synthesis failed: " : String).data =
      'S' :: ("ynthesis failed: " : String).data from by
      with_unfolding_all rfl] at hh
  simp at hh

theorem synthesize_error_ne_queueFull (e : Engine) (t s : String) (n k : Nat) :
    (e.synthesize t s n).resp.error ≠ some (queueFullMsg k) := by
  unfold Engine.synthesize Engine.endSynth
  by_cases hb : e.busy
  · simp only [hb, if_true, format_response]
    intro h
    exact busy_ne_queueFull (toString e.engine_id) (taskStr e.current_task) k
      (Option.some.inj (by simpa using h))
  · simp only [hb, if_false]
    by_cases hv : validate_text t (e.beginSynth t n).max_text_length
    · simp only [hv, not_true, if_false]
      cases hh : (e.beginSynth t n).handle t with
      | ok a => simp [format_response]
      | error msg =>
        simp only [format_response]
        intro h
        exact synfail_ne_queueFull msg k (Option.some.inj (by simpa using h))
    · simp only [hv, not_false_iff, if_true, format_response]
      intro h
      exact invalid_ne_queueFull (toString (e.beginSynth t n).max_text_length) k
        (Option.some.inj (by simpa using h))

/-- C2 (amended): submit returns the queue-full rejection exactly when no
worker is idle and the queue is at capacity: in that case it returns
immediately with only queue_full_count bumped and nothing enqueued; whenever
the queue is below capacity the outcome is never the queue-full rejection
(and the rejection counter does not move). -/
theorem c2_queue_full_iff (m : Manager) (text speaker : String) (now : Nat) :
    (m.get_available_engine = none → m.request_queue.length ≥ m.max_queue_size →
      m.submitStep text speaker now =
        (.immediate (format_response false now none (some (queueFullMsg m.max_queue_size))),
         { m with queue_full_count := m.queue_full_count + 1 })) ∧
    (m.request_queue.length < m.max_queue_size →
      (m.submitStep text speaker now).2.queue_full_count = m.queue_full_count ∧
      ∀ r, (m.submitStep text speaker now).1 = .immediate r →
        r.error ≠ some (queueFullMsg m.max_queue_size)) := by
  constructor
  · intro hnone hfull
    simp [Manager.submitStep, hnone, Manager.add_to_queue, hfull, format_response]
  · intro hlt
    cases hfa : m.get_available_engine with
    | some p =>
      obtain ⟨i, e⟩ := p
      constructor
      · simp [Manager.submitStep, hfa]
      · intro r hr
        have : (e.synthesize text speaker now).resp = r := by
          simp only [Manager.submitStep, hfa] at hr
          exact SubmitOutcome.immediate.inj hr
        rw [← this]
        exact synthesize_error_ne_queueFull e text speaker now m.max_queue_size
    | none =>
      have hnf : ¬ m.request_queue.length ≥ m.max_queue_size := Nat.not_le.mpr hlt
      constructor
      · simp [Manager.submitStep, hfa, Manager.add_to_queue, hnf, format_response]
      · intro r hr
        simp [Manager.submitStep, hfa, Manager.add_to_queue, hnf, format_response] at hr

/-- Counterexample to C2 as stated: with the queue exactly at capacity but a
worker idle (the worker freed up after the queue filled, before any waiting
caller polled), submit serves the new caller directly instead of returning
the queue-full rejection. -/
theorem c2_counterexample :
    c2M.request_queue.length = c2M.max_queue_size ∧
    (c2M.submitStep "hello" "default" 7).1 = .immediate
      { success := true, timestamp := 7,
        data := some (RespData.synth "b64:0:22050:wav" 22050 "wav" "hello" "default" 0 none),
        error := none } :=
  ⟨by with_unfolding_all rfl, by with_unfolding_all rfl⟩

/-- Witness for C2 amended: a busy-worker manager at capacity gets the
rejection; a fresh manager below capacity never does. -/
theorem c2_witness :
    (c2F.get_available_engine = none ∧ c2F.request_queue.length ≥ c2F.max_queue_size) ∧
    c2F.submitStep "hello" "default" 9 =
      (.immediate (format_response false 9 none (some (queueFullMsg c2F.max_queue_size))),
       { c2F with queue_full_count := c2F.queue_full_count + 1 }) ∧
    (c5M.request_queue.length < c5M.max_queue_size ∧
     (c5M.submitStep "hello" "default" 9).2.queue_full_count = c5M.queue_full_count) :=
  ⟨⟨by with_unfolding_all rfl, of_decide_eq_true (by with_unfolding_all rfl)⟩,
   (c2_queue_full_iff c2F "hello" "default" 9).1 (by with_unfolding_all rfl)
     (of_decide_eq_true (by with_unfolding_all rfl)),
   ⟨of_decide_eq_true (by with_unfolding_all rfl),
    ((c2_queue_full_iff c5M "hello" "default" 9).2
      (of_decide_eq_true (by with_unfolding_all rfl))).1⟩⟩

theorem synthesize_success_data (e : Engine) (t s : String) (n : Nat)
    (h : (e.synthesize t s n).resp.success = true) :
    ∃ au, (e.synthesize t s n).resp.data =
      some (.synth au e.sample_rate e.audio_format t s e.engine_id none) := by
  unfold Engine.synthesize at *
  by_cases hb : e.busy
  · simp [hb, format_response] at h
  · simp only [hb, if_false] at *
    unfold Engine.endSynth at *
    by_cases hv : validate_text t (e.beginSynth t n).max_text_length
    · simp only [hv, not_true, if_false] at *
      cases hh : (e.beginSynth t n).handle t with
      | ok a =>
        rw [hh] at *
        refine ⟨audio_to_base64 a e.sample_rate e.audio_format, ?_⟩
        simp [format_response, Engine.beginSynth, Engine.set_busy]
      | error msg => rw [hh] at h; simp [format_response] at h
    · simp [hv, format_response] at h

/-- C1 (amended): whenever process_queue dispatches a job to a worker, it is
always the head of the request queue — queued jobs are served in strict FIFO
order of enqueue. (As stated the claim also fails: a submission arriving
while a worker is idle bypasses the queue entirely; see the counterexample.) -/
theorem c1_queue_fifo (m : Manager) (now : Nat) (f : QueueItem)
    (rest : List QueueItem) (i : Nat) (e : Engine)
    (hq : m.request_queue = f :: rest)
    (hexp : now - f.timestamp ≤ m.queue_timeout)
    (hfind : m.get_available_engine = some (i, e)) :
    (m.process_queue now).2.1.request_queue = rest ∧
    (m.process_queue now).2.2 =
      some (.ran f.id i ((e.synthesize f.text f.speaker now).resp.success)) ∧
    (m.process_queue now).1.bind requestIdOf = some f.id := by
  have hnexp : ¬ (now - f.timestamp > m.queue_timeout) := Nat.not_lt.mpr hexp
  refine ⟨?_, ?_, ?_⟩
  · simp only [Manager.process_queue, hq, hnexp, if_false, hfind]
  · simp only [Manager.process_queue, hq, hnexp, if_false, hfind]
    cases hs : (e.synthesize f.text f.speaker now).resp.success <;> simp [hs]
  · simp only [Manager.process_queue, hq, hnexp, if_false, hfind]
    cases hs : (e.synthesize f.text f.speaker now).resp.success
    · simp only [hs, Bool.false_eq_true, if_false, Option.bind]
      rfl
    · obtain ⟨au, hd⟩ := synthesize_success_data e f.text f.speaker now hs
      simp [hs, Option.bind, requestIdOf, setReqId, hd]

/-- Witness for C1 amended: one queued request, one idle worker. -/
theorem c1_witness :
    (c1QM.request_queue =
      [{ text := "queued text", speaker := "default", timestamp := 2, id := 0 }] ∧
     5 - (2 : Nat) ≤ c1QM.queue_timeout ∧
     c1QM.get_available_engine = some (0, eng0)) ∧
    (c1QM.process_queue 5).2.1.request_queue = [] ∧
    (c1QM.process_queue 5).2.2 =
      some (.ran 0 0 ((eng0.synthesize "queued text" "default" 5).resp.success)) ∧
    (c1QM.process_queue 5).1.bind requestIdOf = some 0 :=
  ⟨⟨rfl, of_decide_eq_true (by with_unfolding_all rfl), by with_unfolding_all rfl⟩,
   c1_queue_fifo c1QM 5
     { text := "queued text", speaker := "default", timestamp := 2, id := 0 } [] 0 eng0
     rfl (of_decide_eq_true (by with_unfolding_all rfl)) (by with_unfolding_all rfl)⟩

/-- Counterexample to C1 as stated: in the run of c1Acts, caller 1 enqueues
its job at time 1 while the only worker is busy; the worker frees up at time
2; caller 2 then submits at time 3 and is served directly, beginning
execution at once while caller 1's earlier job is still waiting in the queue
unstarted — a later submission bypasses the queue. -/
theorem c1_counterexample :
    fifoOk ((c1Init.run c1Acts)).events 3 = false ∧
    Event.enqueued 1 0 1 ∈ (c1Init.run c1Acts).events ∧
    (c1Init.run c1Acts).mgr.request_queue.length = 1 ∧
    submittedTimeOf (c1Init.run c1Acts).events 1 = some 1 ∧
    submittedTimeOf (c1Init.run c1Acts).events 2 = some 3 ∧
    startTimeOf (c1Init.run c1Acts).events 2 = some 3 ∧
    startTimeOf (c1Init.run c1Acts).events 1 = none :=
  ⟨by with_unfolding_all rfl, of_decide_eq_true (by with_unfolding_all rfl),
   by with_unfolding_all rfl, by with_unfolding_all rfl, by with_unfolding_all rfl,
   by with_unfolding_all rfl, by with_unfolding_all rfl⟩

/-- C7 (amended): failure of the accelerator probe never makes the status
snapshot fail — the snapshot is produced with gpu_info marked unavailable and
carrying the error — but a failing memory probe (or a failing psutil process
acquisition in the CPU probe) propagates and the snapshot operation itself
fails; see the counterexample. -/
theorem c7_gpu_failure_tolerated (m : Manager) (t : Telemetry) (cfg : Nat)
    (dev : String) (now st : Nat) (mi : MemInfo)
    (hmem : t.mem = .ok mi) (hcpu : t.cpuProc = .ok ()) :
    ∃ s, m.get_status t cfg dev now st = .ok s ∧
      s.memory_usage = mi ∧
      ∀ emsg, t.gpu = .error emsg →
        s.gpu_info.available = false ∧ s.gpu_info.error = some emsg := by
  unfold Manager.get_status get_memory_usage get_cpu_usage
  rw [hmem, hcpu]
  refine ⟨_, rfl, rfl, ?_⟩
  intro emsg hg
  constructor
  · show (get_gpu_info t.gpu).available = false
    rw [hg]
    rfl
  · show (get_gpu_info t.gpu).error = some emsg
    rw [hg]
    rfl

/-- Counterexample to C7 as stated: a failing memory telemetry probe makes
the whole get_status call raise instead of omitting the field. -/
theorem c7_counterexample :
    memFailT.mem = .error "psutil process gone" ∧
    (initManager [eng0]).get_status memFailT 4 "cpu" 10 0 =
      .error "psutil process gone" :=
  ⟨rfl, by with_unfolding_all rfl⟩

/-- Witness for C7 amended at the gpu-failing telemetry fixture. -/
theorem c7_witness :
    (gpuFailT.mem = .ok memOkInfo ∧ gpuFailT.cpuProc = .ok ()) ∧
    ∃ s, (initManager [eng0]).get_status gpuFailT 4 "cpu" 10 0 = .ok s ∧
      s.memory_usage = memOkInfo ∧
      ∀ emsg, gpuFailT.gpu = .error emsg →
        s.gpu_info.available = false ∧ s.gpu_info.error = some emsg :=
  ⟨⟨rfl, rfl⟩,
   c7_gpu_failure_tolerated (initManager [eng0]) gpuFailT 4 "cpu" 10 0 memOkInfo rfl rfl⟩

theorem synthesize_engine_id (e : Engine) (t s : String) (n : Nat) :
    (e.synthesize t s n).engine.engine_id = e.engine_id := by
  unfold Engine.synthesize Engine.endSynth Engine.beginSynth Engine.set_busy
  by_cases hb : e.busy
  · simp [hb]
  · simp only [hb, if_false]
    by_cases hv : validate_text t e.max_text_length
    · simp only [hv, not_true, if_false]
      cases hh : e.handle t <;> rfl
    · simp [hv]

theorem preloadGo_ids (load : Nat → Except String Handle) :
    ∀ idxs acc, (preloadGo load idxs acc).map (fun e => e.engine_id) =
      acc.map (fun e => e.engine_id) ++ idxs.filter (bootOk load) := by
  intro idxs
  induction idxs with
  | nil => intro acc; simp [preloadGo]
  | cons i rest ih =>
    intro acc
    cases hl : load i with
    | error msg =>
      have hb : bootOk load i = false := by simp [bootOk, hl]
      have hstep : preloadGo load (i :: rest) acc = preloadGo load rest acc := by
        simp [preloadGo, initEngine, hl, Except.map]
      rw [hstep, ih acc, List.filter_cons, hb]
      simp
    | ok h =>
      cases hs : ((mkEngine i h).synthesize warmupText "default" 0).resp.success with
      | true =>
        have hb : bootOk load i = true := by simp [bootOk, hl, hs]
        have hstep : preloadGo load (i :: rest) acc =
            preloadGo load rest (acc ++ [((mkEngine i h).synthesize warmupText "default" 0).engine]) := by
          simp [preloadGo, initEngine, hl, hs, Except.map]
        rw [hstep, ih, List.filter_cons, hb]
        have hid : ((mkEngine i h).synthesize warmupText "default" 0).engine.engine_id = i :=
          synthesize_engine_id (mkEngine i h) warmupText "default" 0
        simp [hid]
      | false =>
        have hb : bootOk load i = false := by simp [bootOk, hl, hs]
        have hstep : preloadGo load (i :: rest) acc = preloadGo load rest acc := by
          simp [preloadGo, initEngine, hl, hs, Except.map]
        rw [hstep, ih acc, List.filter_cons, hb]
        simp

/-- C8: after bootstrap the pool consists of exactly those worker indices, in
order, whose handle load and warmup synthesis both succeeded; a worker that
fails either step is skipped (not retried) and the loop continues with the
remaining workers. -/
theorem c8_bootstrap_pool (n : Nat) (load : Nat → Except String Handle) :
    (preload_models n load).map (fun e => e.engine_id) =
      (List.range n).filter (bootOk load) ∧
    (preload_models n load).all (fun e => bootOk load e.engine_id) = true := by
  have h1 : (preload_models n load).map (fun e => e.engine_id) =
      (List.range n).filter (bootOk load) := by
    have := preloadGo_ids load (List.range n) []
    simpa [preload_models] using this
  refine ⟨h1, ?_⟩
  have h2 : ((preload_models n load).map (fun e => e.engine_id)).all (bootOk load) = true := by
    rw [h1]
    apply List.all_eq_true.mpr
    intro x hx
    exact List.of_mem_filter hx
  simpa [List.all_map, Function.comp] using h2

/-- Witness for C8 at the demo load behaviour: index 1 fails to load, index 2
fails warmup, so the pool holds exactly worker 0. -/
theorem c8_witness :
    (preload_models 3 demoLoad).map (fun e => e.engine_id) =
      (List.range 3).filter (bootOk demoLoad) ∧
    (List.range 3).filter (bootOk demoLoad) = [0] ∧
    (preload_models 3 demoLoad).all (fun e => bootOk demoLoad e.engine_id) = true :=
  ⟨(c8_bootstrap_pool 3 demoLoad).1, by with_unfolding_all rfl,
   (c8_bootstrap_pool 3 demoLoad).2⟩

/-- C3: failing run. In the c3Acts schedule, callers 1 and 2 enqueue requests
0 and 1; caller 2's poll dequeues and completes request 0 but discards the
result because the id is not its own, and caller 1 does the same with request
1. Both jobs complete successfully (successful_requests counts three
successes), yet both submitters end with a timed-out response: completed
results are silently lost while their submitters are still waiting, so a
Job's outcome is not delivered to the caller that submitted it. -/
theorem c3_lost_result_trace :
    (c3Init.run c3Acts).threads.get? 1 = some (.done
      { success := false, timestamp := 6, data := none,
        error := some "Request timed out after 5s" }) ∧
    (c3Init.run c3Acts).threads.get? 2 = some (.done
      { success := false, timestamp := 7, data := none,
        error := some "Request timed out after 5s" }) ∧
    Event.enqueued 1 0 1 ∈ (c3Init.run c3Acts).events ∧
    Event.enqueued 2 1 2 ∈ (c3Init.run c3Acts).events ∧
    Event.jobCompleted (some 0) true 4 ∈ (c3Init.run c3Acts).events ∧
    Event.jobCompleted (some 1) true 5 ∈ (c3Init.run c3Acts).events ∧
    Event.discardedResult 2 (some 0) 4 ∈ (c3Init.run c3Acts).events ∧
    Event.discardedResult 1 (some 1) 5 ∈ (c3Init.run c3Acts).events ∧
    Event.delivered 1 6 ∈ (c3Init.run c3Acts).events ∧
    Event.delivered 2 7 ∈ (c3Init.run c3Acts).events ∧
    (c3Init.run c3Acts).mgr.successful_requests = 3 ∧
    (c3Init.run c3Acts).mgr.request_queue = [] :=
  ⟨by with_unfolding_all rfl, by with_unfolding_all rfl,
   of_decide_eq_true (by with_unfolding_all rfl),
   of_decide_eq_true (by with_unfolding_all rfl),
   of_decide_eq_true (by with_unfolding_all rfl),
   of_decide_eq_true (by with_unfolding_all rfl),
   of_decide_eq_true (by with_unfolding_all rfl),
   of_decide_eq_true (by with_unfolding_all rfl),
   of_decide_eq_true (by with_unfolding_all rfl),
   of_decide_eq_true (by with_unfolding_all rfl),
   by with_unfolding_all rfl, by with_unfolding_all rfl⟩

theorem requestIdOf_format_false (now : Nat) (d : Option RespData) (err : Option String) :
    requestIdOf (format_response false now d err) = none := by
  simp [format_response, requestIdOf]

theorem process_queue_allBusy (m : Manager) (now : Nat)
    (hb : ∀ e ∈ m.engines, e.busy = true) :
    m.process_queue now = (none, m, none) ∨
    ∃ f rest, m.request_queue = f :: rest ∧
      m.process_queue now =
        (some (format_response false now (some (.reqId f.id))
            (some "Request timed out in queue")),
         { m with request_queue := rest, timeout_count := m.timeout_count + 1 },
         some (.expired f.id)) := by
  cases hq : m.request_queue with
  | nil => left; simp [Manager.process_queue, hq]
  | cons f rest =>
    by_cases hexp : now - f.timestamp > m.queue_timeout
    · right
      exact ⟨f, rest, rfl, by simp [Manager.process_queue, hq, hexp]⟩
    · left
      have hfa : m.get_available_engine = none := findAvailable_of_allBusy m.engines hb
      simp [Manager.process_queue, hq, hexp, hfa]

theorem waitLoop_allBusy (rid timeout : Nat) :
    ∀ fuel (m : Manager) (now : Nat),
      (∀ e ∈ m.engines, e.busy = true) →
      ((m.request_queue.filter (fun it => it.id == rid)).length ≤ 1) →
      (m.waitLoop rid timeout fuel now).1.success = false ∧
      (m.waitLoop rid timeout fuel now).1.error = some (timeoutMsg timeout) ∧
      (m.waitLoop rid timeout fuel now).2.request_queue.filter (fun it => it.id == rid) = [] := by
  intro fuel
  induction fuel with
  | zero =>
    intro m now hb hcnt
    refine ⟨rfl, rfl, ?_⟩
    exact filter_eraseP_nil _ m.request_queue hcnt
  | succ k ih =>
    intro m now hb hcnt
    rcases process_queue_allBusy m now hb with hpq | ⟨f, rest, hq, hpq⟩
    · have hrw : m.waitLoop rid timeout (k + 1) now = m.waitLoop rid timeout k (now + 1) := by
        simp only [Manager.waitLoop, hpq]
      rw [hrw]
      exact ih m (now + 1) hb hcnt
    · have hnone : requestIdOf (format_response false now (some (.reqId f.id))
          (some "Request timed out in queue")) = none := requestIdOf_format_false _ _ _
      have hrw : m.waitLoop rid timeout (k + 1) now =
          Manager.waitLoop
            { m with request_queue := rest, timeout_count := m.timeout_count + 1 }
            rid timeout k (now + 1) := by
        simp only [Manager.waitLoop, hpq, hnone]
        simp
      rw [hrw]
      apply ih
      · exact hb
      · have : (List.filter (fun it => it.id == rid) rest).length ≤
            (List.filter (fun it => it.id == rid) (f :: rest)).length := by
          rw [List.filter_cons]
          cases hf : f.id == rid <;> simp
        rw [hq] at hcnt
        exact Nat.le_trans this hcnt

/-- C4: a submission entering the waiting loop while every worker is (and
stays) busy receives the timed-out response when its wall-clock timeout
elapses, and its queue item is gone afterwards — no residue. Hypotheses: the
queue is below capacity at submit time (otherwise the caller is rejected with
queue-full before waiting) and pending queue items carry ids older than the
fresh one, as add_to_queue guarantees. -/
theorem c4_timeout_no_residue (m : Manager) (text speaker : String)
    (timeout now : Nat)
    (hb : ∀ e ∈ m.engines, e.busy = true)
    (hq : m.request_queue.length < m.max_queue_size)
    (hid : ∀ it ∈ m.request_queue, it.id ≠ m.total_requests) :
    (m.synthesize text speaker timeout now).1.success = false ∧
    (m.synthesize text speaker timeout now).1.error = some (timeoutMsg timeout) ∧
    ∀ it ∈ (m.synthesize text speaker timeout now).2.request_queue,
      it.id ≠ m.total_requests := by
  have hfa : m.get_available_engine = none := findAvailable_of_allBusy m.engines hb
  have hnf : ¬ m.request_queue.length ≥ m.max_queue_size := Nat.not_le.mpr hq
  have hstep : m.submitStep text speaker now =
      (.queued m.total_requests,
       { m with
          request_queue := m.request_queue ++
            [({ text := text, speaker := speaker, timestamp := now, id := m.total_requests } : QueueItem)]
          total_requests := m.total_requests + 1 }) := by
    simp [Manager.submitStep, hfa, Manager.add_to_queue, hnf, format_response, requestIdOf]
  have hsyn : m.synthesize text speaker timeout now =
      Manager.waitLoop
        { m with
            request_queue := m.request_queue ++
              [({ text := text, speaker := speaker, timestamp := now, id := m.total_requests } : QueueItem)]
            total_requests := m.total_requests + 1 }
        m.total_requests timeout timeout now := by
    simp only [Manager.synthesize, hstep]
  have hcnt : ((m.request_queue ++
      [({ text := text, speaker := speaker, timestamp := now, id := m.total_requests } : QueueItem)]).filter
        (fun it => it.id == m.total_requests)).length ≤ 1 := by
    rw [List.filter_append]
    have h0 : m.request_queue.filter (fun it => it.id == m.total_requests) = [] := by
      apply List.filter_eq_nil_iff.mpr
      intro it hit
      simp [hid it hit]
    rw [h0]
    simp
  have hmain := waitLoop_allBusy m.total_requests timeout timeout
    { m with
        request_queue := m.request_queue ++
          [({ text := text, speaker := speaker, timestamp := now, id := m.total_requests } : QueueItem)]
        total_requests := m.total_requests + 1 }
    now hb hcnt
  rw [hsyn]
  refine ⟨hmain.1, hmain.2.1, ?_⟩
  intro it hit heq
  have hmem : it ∈ List.filter (fun it => it.id == m.total_requests)
      (Manager.waitLoop
        { m with
            request_queue := m.request_queue ++
              [({ text := text, speaker := speaker, timestamp := now, id := m.total_requests } : QueueItem)]
            total_requests := m.total_requests + 1 }
        m.total_requests timeout timeout now).2.request_queue :=
    List.mem_filter.mpr ⟨hit, by simp [heq]⟩
  rw [hmain.2.2] at hmem
  exact absurd hmem (List.not_mem_nil it)

/-- Witness for C4 at a fresh manager whose only worker is busy, with a
0.3 s timeout. -/
theorem c4_witness :
    ((∀ e ∈ (initManager [busyEng0]).engines, e.busy = true) ∧
     (initManager [busyEng0]).request_queue.length < (initManager [busyEng0]).max_queue_size ∧
     (∀ it ∈ (initManager [busyEng0]).request_queue,
        it.id ≠ (initManager [busyEng0]).total_requests)) ∧
    ((initManager [busyEng0]).synthesize "hi" "default" 3 0).1.success = false ∧
    ((initManager [busyEng0]).synthesize "hi" "default" 3 0).1.error = some (timeoutMsg 3) ∧
    ∀ it ∈ ((initManager [busyEng0]).synthesize "hi" "default" 3 0).2.request_queue,
      it.id ≠ (initManager [busyEng0]).total_requests :=
  ⟨⟨of_decide_eq_true (by with_unfolding_all rfl),
    of_decide_eq_true (by with_unfolding_all rfl),
    of_decide_eq_true (by with_unfolding_all rfl)⟩,
   c4_timeout_no_residue (initManager [busyEng0]) "hi" "default" 3 0
     (of_decide_eq_true (by with_unfolding_all rfl))
     (of_decide_eq_true (by with_unfolding_all rfl))
     (of_decide_eq_true (by with_unfolding_all rfl))⟩
